import Mathlib

/-!
# Verification of the trading engine core

Shallow embedding of `src/backend/cpp_engine/engine.cpp` (class
`TradingEngine`) and, for the struct-based variant that is only declared in
`src/backend/cpp_engine/engine.hpp`, a model built from the specification.

Modelling conventions:
* `std::chrono::steady_clock` time points are modelled as `Int` values in
  whole seconds; `duration_cast<seconds>(a - b).count()` is then exactly
  `a - b`.  The clock is monotone, which callers express as ordered time
  arguments.
* C++ `double` values that the engine only stores, echoes or compares
  (prices, stakes) are modelled as `ℚ`; the engine performs no arithmetic on
  them that could expose floating-point rounding.
* `nlohmann::json` inputs are modelled post-parse: an input whose parse (or
  field extraction / conversion) throws inside the `try` block is the
  `Except.error`/`none` case, carrying the exception message where the code
  uses it.  The JSON strings the engine returns are modelled as structured
  values (`ExecResult`, `TickResult`, `BotStateMsg`) holding exactly the
  fields the code writes.
* `std::unordered_map<string, double>` is modelled as `String → Option ℚ`.
-/

/-- Safety constant `MAX_LATENCY_MS = 1000.0` from engine.cpp (unused by the
engine logic, kept for fidelity). -/
def MAX_LATENCY_MS : ℚ := 1000

/-- Safety constant `MAX_ACTIVE_TRADES = 10` from engine.cpp. -/
def MAX_ACTIVE_TRADES : Int := 10

/-- Safety constant `MIN_STAKE = 0.35` from engine.cpp (written with `mkRat`
so that the kernel can evaluate comparisons against it). -/
def MIN_STAKE : ℚ := mkRat 35 100

/-- Safety constant `MAX_STAKE = 100.0` from engine.cpp. -/
def MAX_STAKE : ℚ := 100

/-- The mutable state of the C++ `TradingEngine` class: `price_cache`,
`last_trade_time`, `cooldown_seconds`, `is_initialized` (named `is_init`
here), `is_running`, `start_time`. -/
structure TradingEngine where
  price_cache : String → Option ℚ
  last_trade_time : Int
  cooldown_seconds : Int
  is_init : Bool
  is_running : Bool
  start_time : Int

/-- The C++ constructor `TradingEngine()`, run at time `now`: cooldown
defaults to 60, `last_trade_time = now - cooldown_seconds * 2` (a past time
to allow immediate trading), `start_time = now`; field initialisers give
`is_initialized = false`, `is_running = true`, empty cache. -/
def TradingEngine.construct (now : Int) : TradingEngine :=
  { price_cache := fun _ => none
    last_trade_time := now - 60 * 2
    cooldown_seconds := 60
    is_init := false
    is_running := true
    start_time := now }

/-- A successfully parsed configuration JSON object, restricted to the keys
the engine reads or that the claims mention: `initialize` reads only
`cooldown_seconds` (via `contains` then assignment); `max_open_trades` is
carried to show it is ignored.  A field is `none` when the key is absent. -/
structure ConfigJson where
  cooldown_seconds : Option Int
  max_open_trades : Option Int

/-- Rejection string for check 1 of `validate_trade`. -/
def msgNotInit : String := "Engine not initialized"

/-- Rejection string for check 2 of `validate_trade`. -/
def msgStopped : String := "Bot is stopped"

/-- Rejection string for the lower stake bound; `to_string(MIN_STAKE)`
renders the double 0.35 with six decimals. -/
def belowMinMsg : String := "Stake below minimum (0.350000)"

/-- Rejection string for the upper stake bound; `to_string(MAX_STAKE)`
renders the double 100.0 with six decimals. -/
def aboveMaxMsg : String := "Stake above maximum (100.000000)"

/-- Rejection string for an empty symbol. -/
def msgEmptySym : String := "Symbol is empty"

/-- Rejection string for the active-trade-count check. -/
def msgMaxTrades : String := "Max active trades limit reached"

/-- Rejection string for the cooldown check with `k = cooldown_seconds -
elapsed` seconds remaining. -/
def cooldownMsg (k : Int) : String :=
  "Cooldown active. Wait " ++ toString k ++ "s"

/-- The `ValidationResult` struct of engine.cpp. -/
structure ValidationResult where
  valid : Bool
  error : String
deriving DecidableEq

/-- `TradingEngine::validate_trade(stake, symbol, active_trades)`, with the
call time `now` made explicit (the code reads `steady_clock::now()` for the
cooldown check).  The checks appear in source order. -/
def validate_trade (st : TradingEngine) (stake : ℚ) (symbol : String)
    (active_trades : Int) (now : Int) : ValidationResult :=
  if st.is_init = false then ⟨false, msgNotInit⟩
  else if st.is_running = false then ⟨false, msgStopped⟩
  else if stake < MIN_STAKE then ⟨false, belowMinMsg⟩
  else if MAX_STAKE < stake then ⟨false, aboveMaxMsg⟩
  else if symbol = "" then ⟨false, msgEmptySym⟩
  else if MAX_ACTIVE_TRADES ≤ active_trades then ⟨false, msgMaxTrades⟩
  else if now - st.last_trade_time < st.cooldown_seconds then
    ⟨false, cooldownMsg (st.cooldown_seconds - (now - st.last_trade_time))⟩
  else ⟨true, "OK"⟩

/-- `TradingEngine::initialize(config_json)`.  Input `none` models a config
string on which the `try` block throws (parse failure or ill-typed
`cooldown_seconds`): nothing before the throw has mutated state, so the
engine state is returned unchanged and the error line is logged.  Otherwise
`cooldown_seconds` is taken from the config when the key is present and
`is_initialized` becomes true.  The returned `String` is the `cout` line. -/
def init_engine (cfg : Option ConfigJson) (st : TradingEngine) :
    TradingEngine × String :=
  match cfg with
  | none => (st, "[CPP] Init Error: Invalid Config")
  | some c =>
      let cd := c.cooldown_seconds.getD st.cooldown_seconds
      ({ st with cooldown_seconds := cd, is_init := true },
       "[CPP] Engine Initialized. Cooldown: " ++ toString cd ++ "s")

/-- A successfully parsed `execute_trade` request: `symbol`, `action` and
`stake` are mandatory (a missing or ill-typed one throws, which is the
`Except.error` case of the caller), `active_trades` is read with
`params.value("active_trades", 0)`. -/
structure ExecParams where
  symbol : String
  action : String
  stake : ℚ
  active_trades : Option Int

/-- The JSON object `TradingEngine::execute_trade` returns: `status =
"rejected"` with a reason, `status = "approved"` echoing symbol/action/stake,
or `status = "error"` with the exception message. -/
inductive ExecResult where
  | rejected (reason : String)
  | approved (symbol : String) (action : String) (stake : ℚ)
  | error (message : String)
deriving DecidableEq

/-- `TradingEngine::execute_trade(params_json)` at call time `now`: parse,
validate, and on success record `last_trade_time = now` before building the
approval object.  Returns the response together with the new engine state. -/
def execute_trade (st : TradingEngine) (p : Except String ExecParams)
    (now : Int) : ExecResult × TradingEngine :=
  match p with
  | .error msg => (.error msg, st)
  | .ok params =>
      let val := validate_trade st params.stake params.symbol
        (params.active_trades.getD 0) now
      if val.valid then
        (.approved params.symbol params.action params.stake,
         { st with last_trade_time := now })
      else
        (.rejected val.error, st)

/-- A successfully parsed tick: `tick["symbol"]` and `tick["quote"]`.  If
either extraction throws the caller sees the `Except.error` case; the cache
write comes after both reads, so a throw leaves the state unchanged. -/
structure TickMsg where
  symbol : String
  quote : ℚ

/-- The JSON object `TradingEngine::process_tick` returns: either the
analysis (symbol, price, and the hard-coded neutral `signal`) or the error
object `{"error": e.what()}`. -/
inductive TickResult where
  | analysis (symbol : String) (price : ℚ) (signal : ℚ)
  | error (message : String)
deriving DecidableEq

/-- `TradingEngine::process_tick(tick_json)`: store the quote in
`price_cache[symbol]` and return the analysis with `signal = 0.5`. -/
def process_tick (st : TradingEngine) (t : Except String TickMsg) :
    TickResult × TradingEngine :=
  match t with
  | .error msg => (.error msg, st)
  | .ok tick =>
      (.analysis tick.symbol tick.quote (mkRat 1 2),
       { st with price_cache := fun s =>
          if s = tick.symbol then some tick.quote else st.price_cache s })

/-- `TradingEngine::set_cooldown(seconds)`. -/
def set_cooldown (seconds : Int) (st : TradingEngine) : TradingEngine :=
  { st with cooldown_seconds := seconds }

/-- `TradingEngine::set_bot_state(state)`. -/
def set_bot_state (state : Bool) (st : TradingEngine) : TradingEngine :=
  { st with is_running := state }

/-- The JSON object `TradingEngine::get_bot_state` returns: `is_running` and
`uptime_seconds`. -/
structure BotStateMsg where
  is_running : Bool
  uptime_seconds : Int
deriving DecidableEq

/-- `TradingEngine::get_bot_state()` at call time `now`: reports the running
flag and `uptime = now - start_time` in whole seconds; it mutates nothing. -/
def get_bot_state (st : TradingEngine) (now : Int) : BotStateMsg :=
  ⟨st.is_running, now - st.start_time⟩

/-- One engine entry point together with its (already parsed) argument, for
reasoning about arbitrary operation sequences against the one global engine
instance. -/
inductive Op where
  | opInit (cfg : Option ConfigJson)
  | opTick (t : Except String TickMsg)
  | opTrade (p : Except String ExecParams)
  | opSetCooldown (seconds : Int)
  | opSetState (b : Bool)
  | opGetState

/-- The state transition of one timed operation (outputs discarded). -/
def stepAt (st : TradingEngine) : Op × Int → TradingEngine
  | (.opInit cfg, _) => (init_engine cfg st).1
  | (.opTick t, _) => (process_tick st t).2
  | (.opTrade p, t) => (execute_trade st p t).2
  | (.opSetCooldown s, _) => set_cooldown s st
  | (.opSetState b, _) => set_bot_state b st
  | (.opGetState, _) => st

/-- Run a sequence of timed operations from a state. -/
def runFrom (st : TradingEngine) : List (Op × Int) → TradingEngine
  | [] => st
  | e :: rest => runFrom (stepAt st e) rest

/-- Whether an `ExecResult` is an approval. -/
def ExecResult.isApproved : ExecResult → Bool
  | .approved _ _ _ => true
  | _ => false

/-- Whether a timed operation, taken in state `st`, issues an approved
trade. -/
def approvesAt (st : TradingEngine) : Op × Int → Bool
  | (.opTrade p, t) => ((execute_trade st p t).1).isApproved
  | _ => false

/-!
## The struct-based engine variant

`engine.hpp` declares a second engine surface (`Config`/`Tick`/`Position`/
`Signal`/`BotState`, `Signal process_tick(Tick*, Position*, int)`) with
drawdown handling and a PANIC action, but its implementation is not in the
repository sources available here — only the declarations are.  The cycle
logic (PanicMonitor, exposure check, SignalGenerator, RiskSizer) is
therefore modelled from the specification.
-/

/-- The `ActionType` enum of engine.hpp. -/
inductive ActionType where
  | NONE
  | BUY
  | SELL
  | CLOSE_BUY
  | CLOSE_SELL
  | PANIC
deriving DecidableEq

/-- The `Config` struct of engine.hpp, restricted to the fields the modelled
cycle reads. -/
structure StructConfig where
  grid_size : ℚ
  risk_percent : ℚ
  max_lots : ℚ
  stop_loss_points : ℚ
  take_profit_points : ℚ
  max_open_trades : Int
  drawdown_limit : ℚ

/-- The `Tick` struct of engine.hpp (epoch time omitted, unused by the
modelled cycle). -/
structure StructTick where
  bid : ℚ
  ask : ℚ
  symbol : String

/-- The `Position` struct of engine.hpp, restricted to the fields the
modelled cycle reads. -/
structure Position where
  open_price : ℚ

/-- The `Signal` struct of engine.hpp. -/
structure StructSignal where
  action : ActionType
  symbol : String
  lots : ℚ
  sl : ℚ
  tp : ℚ
  confidence : ℚ
  comment : String

/-- State of the struct-based engine: configuration, run flag, latest
account snapshot, and the per-cycle drawdown. -/
structure StructState where
  config : StructConfig
  running : Bool
  balance : ℚ
  equity : ℚ
  current_drawdown : ℚ

/-- Truncation toward zero of a rational to an integer (the spec makes
truncation toward zero, as opposed to floor, an explicit policy choice). -/
def ratTrunc (q : ℚ) : Int :=
  if 0 ≤ q then ⌊q⌋ else ⌈q⌉

/-- Truncation (not rounding) of a rational to two decimal places. -/
def trunc2 (q : ℚ) : ℚ :=
  (ratTrunc (q * 100) : ℚ) / 100

/-- Modelled from the spec: the fixed fallback minimum size of RiskSizer
(spec §4.1, "fixed fallback minimum size"); its concrete value is not fixed
by the spec. -/
def structMinSize : ℚ := 1 / 100

/-- Modelled from the spec: RiskSizer's `computeSize(equity, riskPercent,
stopLossDistance, maxSize)` (spec §4.1), whose implementation is not in the
available sources.  Non-positive stop distance degrades to the fallback
minimum; otherwise riskAmount = equity × riskPercent/100, size =
riskAmount / stopLossDistance, clamped to [minSize, maxSize] and truncated
to two decimals. -/
def computeSize (equity riskPercent stopLossDistance maxSize : ℚ) : ℚ :=
  if stopLossDistance ≤ 0 then structMinSize
  else
    let riskAmount := equity * riskPercent / 100
    let size := riskAmount / stopLossDistance
    trunc2 (max structMinSize (min maxSize size))

/-- Modelled from the spec: PanicMonitor's reference balance (spec §4.3) —
`balance` when positive, else `equity`, avoiding division by zero when the
balance is unset. -/
def referenceBalance (balance equity : ℚ) : ℚ :=
  if 0 < balance then balance else equity

/-- Modelled from the spec: PanicMonitor's drawdown (spec §4.3), in percent
of the reference balance. -/
def drawdownOf (balance equity : ℚ) : ℚ :=
  (referenceBalance balance equity - equity) / referenceBalance balance equity
    * 100

/-- Modelled from the spec: SignalGenerator (spec §4.2), whose
implementation is not in the available sources.  Works on the mid price,
truncated grid level, distance to the grid line and a 5% tolerance; an
existing position within grid_size/2 of the mid suppresses the signal;
direction is SELL for positive distance, BUY otherwise; sl/tp offset from
the relevant side's price; size filled in by RiskSizer. -/
def gridSignal (st : StructState) (tick : StructTick)
    (positions : List Position) : StructSignal :=
  let mid := (tick.bid + tick.ask) / 2
  let gridLevel := ratTrunc (mid / st.config.grid_size)
  let gridLine := (gridLevel : ℚ) * st.config.grid_size
  let dist := mid - gridLine
  let tolerance := st.config.grid_size * (5 / 100)
  if tolerance ≤ |dist| then
    ⟨.NONE, tick.symbol, 0, 0, 0, 0, "No signal"⟩
  else if positions.any fun p =>
      |p.open_price - mid| ≤ st.config.grid_size / 2 then
    ⟨.NONE, tick.symbol, 0, 0, 0, 0, "Existing position near grid line"⟩
  else
    let confidence := max 0 (1 - |dist| / tolerance)
    let lots := computeSize st.equity st.config.risk_percent
      st.config.stop_loss_points st.config.max_lots
    if 0 < dist then
      ⟨.SELL, tick.symbol, lots, tick.bid + st.config.stop_loss_points,
       tick.bid - st.config.take_profit_points, confidence,
       "Grid level " ++ toString gridLevel⟩
    else
      ⟨.BUY, tick.symbol, lots, tick.ask - st.config.stop_loss_points,
       tick.ask + st.config.take_profit_points, confidence,
       "Grid level " ++ toString gridLevel⟩

/-- Modelled from the spec: one cycle of the struct-based engine's
`process_tick(Tick*, Position*, int)` (spec §2, §4.3), whose implementation
is not in the available sources.  The drawdown is recomputed and stored
every cycle; if `drawdown_limit > 0` and the drawdown reaches it, the run
flag is forced to false and a PANIC decision is returned, skipping the
exposure check and signal generation; otherwise the exposure-limit check may
suppress signal generation, and otherwise the grid signal is produced. -/
def struct_process_tick (st : StructState) (tick : StructTick)
    (positions : List Position) : StructSignal × StructState :=
  let dd := drawdownOf st.balance st.equity
  if 0 < st.config.drawdown_limit ∧ st.config.drawdown_limit ≤ dd then
    (⟨.PANIC, tick.symbol, 0, 0, 0, 1, "Drawdown limit reached"⟩,
     { st with running := false, current_drawdown := dd })
  else if st.config.max_open_trades ≤ (positions.length : Int) then
    (⟨.NONE, tick.symbol, 0, 0, 0, 0, "Exposure limit reached"⟩,
     { st with current_drawdown := dd })
  else
    (gridSignal st tick positions, { st with current_drawdown := dd })

/-!
## Helper lemmas
-/

/-- The cooldown rejection message always starts with the character C. -/
lemma cooldownMsg_head (k : Int) : (cooldownMsg k).data.head? = some 'C' := by
  have h1 : "Cooldown active. Wait ".data = 'C' :: "ooldown active. Wait ".data := by
    decide
  simp only [cooldownMsg, String.data_append, h1, List.cons_append,
    List.head?_cons]

/-- The cooldown rejection message differs from any string not starting with
the character C, whatever the remaining-seconds value is. -/
lemma cooldownMsg_ne (k : Int) (s : String) (hs : s.data.head? ≠ some 'C') :
    cooldownMsg k ≠ s :=
  fun h => hs (h ▸ cooldownMsg_head k)

/-- `validate_trade` approves exactly when all six checks pass. -/
lemma validate_trade_valid_iff (st : TradingEngine) (stake : ℚ)
    (sym : String) (act now : Int) :
    (validate_trade st stake sym act now).valid = true ↔
      (st.is_init = true ∧ st.is_running = true ∧ MIN_STAKE ≤ stake ∧
        stake ≤ MAX_STAKE ∧ sym ≠ "" ∧ act < MAX_ACTIVE_TRADES ∧
        st.cooldown_seconds ≤ now - st.last_trade_time) := by
  unfold validate_trade
  split_ifs with h1 h2 h3 h4 h5 h6 h7 <;> simp_all

/-- An approved `validate_trade` result is exactly `⟨true, "OK"⟩`. -/
lemma validate_trade_valid_eq (st : TradingEngine) (stake : ℚ)
    (sym : String) (act now : Int)
    (h : (validate_trade st stake sym act now).valid = true) :
    validate_trade st stake sym act now = ⟨true, "OK"⟩ := by
  unfold validate_trade at h ⊢
  split_ifs at h ⊢
  simp_all

/-- Structure of an approving `execute_trade` call: the underlying
validation succeeded and the only state change is `last_trade_time = now`. -/
lemma execute_trade_approved (st : TradingEngine)
    (p : Except String ExecParams) (now : Int)
    (h : ((execute_trade st p now).1).isApproved = true) :
    ∃ params, p = Except.ok params ∧
      (validate_trade st params.stake params.symbol
        (params.active_trades.getD 0) now).valid = true ∧
      (execute_trade st p now).2 = { st with last_trade_time := now } := by
  cases p with
  | error msg => simp [execute_trade, ExecResult.isApproved] at h
  | ok params =>
      refine ⟨params, rfl, ?_, ?_⟩ <;>
      · by_cases hv : (validate_trade st params.stake params.symbol
          (params.active_trades.getD 0) now).valid = true <;>
          simp_all [execute_trade, ExecResult.isApproved]

/-- A non-approving operation leaves `last_trade_time` unchanged. -/
lemma stepAt_last_trade_time (st : TradingEngine) (e : Op × Int)
    (h : approvesAt st e = false) :
    (stepAt st e).last_trade_time = st.last_trade_time := by
  obtain ⟨op, t⟩ := e
  cases op with
  | opInit cfg => cases cfg <;> simp [stepAt, init_engine]
  | opTick tk => cases tk <;> simp [stepAt, process_tick]
  | opTrade p =>
      cases p with
      | error msg => simp [stepAt, execute_trade]
      | ok params =>
          by_cases hv : (validate_trade st params.stake params.symbol
            (params.active_trades.getD 0) t).valid = true
          · simp_all [approvesAt, stepAt, execute_trade, ExecResult.isApproved]
          · simp_all [approvesAt, stepAt, execute_trade, ExecResult.isApproved]
  | opSetCooldown s => simp [stepAt, set_cooldown]
  | opSetState b => simp [stepAt, set_bot_state]
  | opGetState => simp [stepAt]

/-- `MIN_STAKE` as a division literal, for numeric reasoning. -/
lemma MIN_STAKE_eq : MIN_STAKE = 35 / 100 := by
  rw [MIN_STAKE, Rat.mkRat_eq_div]; norm_num

/-!
## Claims
-/

/-- Claim C2: the six validation checks run in strict priority order with
the first failure determining the rejection reason — (1) engine initialized,
(2) bot running, (3) stake within bounds (below-minimum and above-maximum
each with their own reason), (4) symbol non-empty, (5) active trade count
below the maximum, (6) cooldown elapsed — and validation approves exactly
when all six pass. -/
theorem claim_C2_validate_priority (st : TradingEngine) (stake : ℚ)
    (sym : String) (act now : Int) :
    ((validate_trade st stake sym act now).valid = true ↔
      (st.is_init = true ∧ st.is_running = true ∧ MIN_STAKE ≤ stake ∧
        stake ≤ MAX_STAKE ∧ sym ≠ "" ∧ act < MAX_ACTIVE_TRADES ∧
        st.cooldown_seconds ≤ now - st.last_trade_time)) ∧
    (st.is_init = false → validate_trade st stake sym act now =
      ⟨false, msgNotInit⟩) ∧
    (st.is_init = true → st.is_running = false →
      validate_trade st stake sym act now = ⟨false, msgStopped⟩) ∧
    (st.is_init = true → st.is_running = true → stake < MIN_STAKE →
      validate_trade st stake sym act now = ⟨false, belowMinMsg⟩) ∧
    (st.is_init = true → st.is_running = true → MIN_STAKE ≤ stake →
      MAX_STAKE < stake →
      validate_trade st stake sym act now = ⟨false, aboveMaxMsg⟩) ∧
    (st.is_init = true → st.is_running = true → MIN_STAKE ≤ stake →
      stake ≤ MAX_STAKE → sym = "" →
      validate_trade st stake sym act now = ⟨false, msgEmptySym⟩) ∧
    (st.is_init = true → st.is_running = true → MIN_STAKE ≤ stake →
      stake ≤ MAX_STAKE → sym ≠ "" → MAX_ACTIVE_TRADES ≤ act →
      validate_trade st stake sym act now = ⟨false, msgMaxTrades⟩) ∧
    (st.is_init = true → st.is_running = true → MIN_STAKE ≤ stake →
      stake ≤ MAX_STAKE → sym ≠ "" → act < MAX_ACTIVE_TRADES →
      now - st.last_trade_time < st.cooldown_seconds →
      validate_trade st stake sym act now =
        ⟨false, cooldownMsg
          (st.cooldown_seconds - (now - st.last_trade_time))⟩) := by
  refine ⟨validate_trade_valid_iff st stake sym act now,
    ?_, ?_, ?_, ?_, ?_, ?_, ?_⟩
  · intro h1; simp [validate_trade, h1]
  · intro h1 h2; simp [validate_trade, h1, h2]
  · intro h1 h2 h3; simp [validate_trade, h1, h2, h3]
  · intro h1 h2 h3 h4
    simp [validate_trade, h1, h2, not_lt.mpr h3, h4]
  · intro h1 h2 h3 h4 h5
    simp [validate_trade, h1, h2, not_lt.mpr h3, not_lt.mpr h4, h5]
  · intro h1 h2 h3 h4 h5 h6
    simp [validate_trade, h1, h2, not_lt.mpr h3, not_lt.mpr h4, h5, h6]
  · intro h1 h2 h3 h4 h5 h6 h7
    simp [validate_trade, h1, h2, not_lt.mpr h3, not_lt.mpr h4, h5,
      not_le.mpr h6, h7]

/-- Witness for C2 at concrete inputs: an uninitialized engine rejects with
the not-initialized reason, and an initialized running engine with all
checks passing approves. -/
theorem claim_C2_witness :
    validate_trade (TradingEngine.construct 0) 1 "R_100" 0 0 =
      ⟨false, msgNotInit⟩ ∧
    (validate_trade { TradingEngine.construct 0 with is_init := true } 1
      "R_100" 0 0).valid = true := by
  constructor
  · exact (claim_C2_validate_priority (TradingEngine.construct 0) 1 "R_100"
      0 0).2.1 rfl
  · exact (claim_C2_validate_priority
      { TradingEngine.construct 0 with is_init := true } 1 "R_100"
      0 0).1.mpr ⟨rfl, rfl, by decide, by decide, by decide, by decide,
        by decide⟩

/-- Counterexample to claim C4: `initialize` does not leave the engine in
the Stopped state and does not reset timestamps — after initializing a
constructed engine whose `last_trade_time` was 999, the running flag is
still true (its constructor default) and `last_trade_time` is still 999. -/
theorem claim_C4_counterexample :
    ((init_engine (some ⟨some 60, none⟩)
      { TradingEngine.construct 0 with last_trade_time := 999 }).1).is_running
      ≠ false ∧
    ((init_engine (some ⟨some 60, none⟩)
      { TradingEngine.construct 0 with
          last_trade_time := 999 }).1).last_trade_time = 999 := by
  exact ⟨by decide, rfl⟩

/-- Claim C4, amended: initializing the engine sets `is_initialized` and
takes `cooldown_seconds` from the config when present; it leaves the running
flag (constructor default true), `last_trade_time`, `start_time` and the
price cache unchanged — it neither forces the Stopped state nor resets
counters or timestamps. -/
theorem claim_C4_init_state (st : TradingEngine) (c : ConfigJson) :
    ((init_engine (some c) st).1).is_init = true ∧
    ((init_engine (some c) st).1).cooldown_seconds =
      c.cooldown_seconds.getD st.cooldown_seconds ∧
    ((init_engine (some c) st).1).is_running = st.is_running ∧
    ((init_engine (some c) st).1).last_trade_time = st.last_trade_time ∧
    ((init_engine (some c) st).1).start_time = st.start_time ∧
    ((init_engine (some c) st).1).price_cache = st.price_cache :=
  ⟨rfl, rfl, rfl, rfl, rfl, rfl⟩

/-- Counterexample to claim C5: with a configuration whose
`max_open_trades` is 3 (and cooldown 0), a candidate with 5 active trades —
not below the configured limit — is nevertheless approved, because the code
compares against the fixed constant `MAX_ACTIVE_TRADES = 10`. -/
theorem claim_C5_counterexample :
    (validate_trade
      (init_engine (some ⟨some 0, some 3⟩) (TradingEngine.construct 0)).1
      1 "R_100" 5 0).valid = true ∧
    ¬ ((5 : Int) < 3) := by
  exact ⟨by decide, by decide⟩

/-- Claim C5, amended: the admission check on open-trade count compares
against the fixed built-in constant `MAX_ACTIVE_TRADES = 10`, not the
configured `max_open_trades` — initialization ignores every config field
except `cooldown_seconds`, and with the earlier checks passing the
max-trades rejection occurs exactly when the active count is at least 10. -/
theorem claim_C5_fixed_limit :
    (∀ (c1 c2 : ConfigJson) (st : TradingEngine),
      c1.cooldown_seconds = c2.cooldown_seconds →
      init_engine (some c1) st = init_engine (some c2) st) ∧
    (∀ (st : TradingEngine) (stake : ℚ) (sym : String) (act now : Int),
      st.is_init = true → st.is_running = true → MIN_STAKE ≤ stake →
      stake ≤ MAX_STAKE → sym ≠ "" →
      st.cooldown_seconds ≤ now - st.last_trade_time →
      (validate_trade st stake sym act now = ⟨false, msgMaxTrades⟩ ↔
        MAX_ACTIVE_TRADES ≤ act)) := by
  constructor
  · intro c1 c2 st h
    simp [init_engine, h]
  · intro st stake sym act now h1 h2 h3 h4 h5 h6
    constructor
    · intro h
      by_contra hact
      push_neg at hact
      have hv : (validate_trade st stake sym act now).valid = true :=
        (validate_trade_valid_iff st stake sym act now).mpr
          ⟨h1, h2, h3, h4, h5, hact, h6⟩
      rw [validate_trade_valid_eq st stake sym act now hv] at h
      exact absurd (congrArg ValidationResult.valid h) (by decide)
    · intro h
      simp [validate_trade, h1, h2, not_lt.mpr h3, not_lt.mpr h4, h5, h]

/-- Witness for C5's amended claim at concrete inputs: an initialized
running engine with 12 active trades rejects with the max-trades reason. -/
theorem claim_C5_witness :
    validate_trade { TradingEngine.construct 0 with is_init := true } 1
      "R_100" 12 0 = ⟨false, msgMaxTrades⟩ :=
  (claim_C5_fixed_limit.2 { TradingEngine.construct 0 with is_init := true }
    1 "R_100" 12 0 rfl rfl (by decide) (by decide) (by decide)
    (by decide)).mpr (by decide)

/-- Counterexample to claim C6: a 0.10-stake request to an uninitialized
engine is rejected with the not-initialized reason, not the below-minimum
reason — so the below-minimum reason does not hold regardless of engine
state. -/
theorem claim_C6_counterexample :
    (validate_trade (TradingEngine.construct 0) (1 / 10) "R_100" 0 0).valid
      = false ∧
    (validate_trade (TradingEngine.construct 0) (1 / 10) "R_100" 0 0).error
      = msgNotInit ∧
    msgNotInit ≠ belowMinMsg := by
  exact ⟨rfl, rfl, by decide⟩

/-- Claim C6, amended: a request with stake 0.10 (below MIN_STAKE = 0.35)
is always rejected, regardless of the other request parameters and of the
engine state; whenever the engine is initialized and the bot running, the
rejection reason is the below-minimum message (otherwise the failing
earlier-priority check supplies the reason). -/
theorem claim_C6_below_min (st : TradingEngine) (sym : String)
    (act now : Int) :
    (validate_trade st (1 / 10) sym act now).valid = false ∧
    (st.is_init = true → st.is_running = true →
      validate_trade st (1 / 10) sym act now = ⟨false, belowMinMsg⟩) := by
  have hlt : (1 : ℚ) / 10 < MIN_STAKE := by
    rw [MIN_STAKE_eq]; norm_num
  constructor
  · cases hval : (validate_trade st (1 / 10) sym act now).valid with
    | false => rfl
    | true =>
        exact absurd ((validate_trade_valid_iff st (1 / 10) sym act
          now).mp hval).2.2.1 (not_le.mpr hlt)
  · intro h1 h2
    unfold validate_trade
    rw [if_neg (by simp [h1]), if_neg (by simp [h2]), if_pos hlt]

/-- Witness for C6 at concrete inputs: an initialized running engine
rejects stake 0.10 with the below-minimum reason. -/
theorem claim_C6_witness :
    validate_trade { TradingEngine.construct 0 with is_init := true }
      (1 / 10) "R_100" 0 0 = ⟨false, belowMinMsg⟩ :=
  (claim_C6_below_min { TradingEngine.construct 0 with is_init := true }
    "R_100" 0 0).2 rfl rfl

/-- Claim C7: a malformed configuration input leaves the engine state (and
in particular the cooldown) unchanged and yields the logged failure report;
malformed tick and trade inputs yield the typed error results with the
state unchanged — no entry point propagates an exception (each is a total
function into a typed result). -/
theorem claim_C7_error_containment :
    (∀ st : TradingEngine, (init_engine none st).1 = st) ∧
    (∀ st : TradingEngine,
      (init_engine none st).2 = "[CPP] Init Error: Invalid Config") ∧
    (∀ (st : TradingEngine) (msg : String),
      process_tick st (.error msg) = (.error msg, st)) ∧
    (∀ (st : TradingEngine) (msg : String) (now : Int),
      execute_trade st (.error msg) now = (.error msg, st)) :=
  ⟨fun _ => rfl, fun _ => rfl, fun _ _ => rfl, fun _ _ _ => rfl⟩

/-- Claim C1: over every sequence of engine operations, an approved trade is
only issued when the elapsed time since the previous approval has reached
the cooldown — each approval requires `cooldown_seconds ≤ now -
last_trade_time`, records `last_trade_time = now`, and no other operation
moves `last_trade_time`; concretely, after an approval at `t0` with
cooldown 60, a candidate passing the other checks is rejected at `t0 + 30`
citing 30 seconds remaining and approved at `t0 + 60`. -/
theorem claim_C1_cooldown :
    (∀ (st : TradingEngine) (pre : List (Op × Int))
      (p : Except String ExecParams) (t : Int),
      approvesAt (runFrom st pre) (.opTrade p, t) = true →
      (runFrom st pre).cooldown_seconds ≤
        t - (runFrom st pre).last_trade_time) ∧
    (∀ (st : TradingEngine) (p : Except String ExecParams) (t : Int),
      ((execute_trade st p t).1).isApproved = true →
      ((execute_trade st p t).2).last_trade_time = t) ∧
    (∀ (st : TradingEngine) (e : Op × Int), approvesAt st e = false →
      (stepAt st e).last_trade_time = st.last_trade_time) ∧
    (∀ (st : TradingEngine) (p : Except String ExecParams) (t0 : Int)
      (sym act : String) (stake : ℚ) (a : Int),
      st.cooldown_seconds = 60 →
      ((execute_trade st p t0).1).isApproved = true →
      MIN_STAKE ≤ stake → stake ≤ MAX_STAKE → sym ≠ "" →
      a < MAX_ACTIVE_TRADES →
      ((execute_trade (execute_trade st p t0).2
          (.ok ⟨sym, act, stake, some a⟩) (t0 + 30)).1 =
        ExecResult.rejected (cooldownMsg 30)) ∧
      cooldownMsg 30 = "Cooldown active. Wait 30s" ∧
      ((execute_trade (execute_trade st p t0).2
          (.ok ⟨sym, act, stake, some a⟩) (t0 + 60)).1).isApproved
        = true) := by
  refine ⟨?_, ?_, ?_, ?_⟩
  · intro st pre p t h
    simp only [approvesAt] at h
    obtain ⟨params, hp, hv, _⟩ := execute_trade_approved (runFrom st pre) p t h
    exact ((validate_trade_valid_iff (runFrom st pre) params.stake
      params.symbol (params.active_trades.getD 0) t).mp hv).2.2.2.2.2.2
  · intro st p t h
    obtain ⟨params, hp, hv, hst⟩ := execute_trade_approved st p t h
    rw [hst]
  · exact stepAt_last_trade_time
  · intro st p t0 sym act stake a hcd happ h3 h4 h5 h6
    obtain ⟨params, hp, hv, hst⟩ := execute_trade_approved st p t0 happ
    have hfacts := (validate_trade_valid_iff st params.stake params.symbol
      (params.active_trades.getD 0) t0).mp hv
    set st1 := (execute_trade st p t0).2 with hst1
    have h1i : st1.is_init = true := by rw [hst]; exact hfacts.1
    have h1r : st1.is_running = true := by rw [hst]; exact hfacts.2.1
    have h1c : st1.cooldown_seconds = 60 := by rw [hst]; exact hcd
    have h1l : st1.last_trade_time = t0 := by rw [hst]
    refine ⟨?_, by decide, ?_⟩
    · have e30 : (t0 + 30) - st1.last_trade_time < st1.cooldown_seconds := by
        omega
      have hrem : st1.cooldown_seconds - ((t0 + 30) - st1.last_trade_time)
          = 30 := by omega
      have hval : validate_trade st1 stake sym a (t0 + 30) =
          ⟨false, cooldownMsg
            (st1.cooldown_seconds - ((t0 + 30) - st1.last_trade_time))⟩ := by
        simp [validate_trade, h1i, h1r, not_lt.mpr h3, not_lt.mpr h4, h5,
          not_le.mpr h6, e30]
      rw [hrem] at hval
      simp [execute_trade, hval]
    · have e60 : st1.cooldown_seconds ≤ (t0 + 60) - st1.last_trade_time := by
        omega
      have hv2 : (validate_trade st1 stake sym a (t0 + 60)).valid = true :=
        (validate_trade_valid_iff st1 stake sym a (t0 + 60)).mpr
          ⟨h1i, h1r, h3, h4, h5, h6, e60⟩
      simp [execute_trade, hv2, ExecResult.isApproved]

/-- Witness for C1 at concrete inputs: after a concrete approval at time 0
with cooldown 60, a second candidate is rejected at time 30 citing 30
seconds remaining and approved at time 60. -/
theorem claim_C1_witness :
    ((execute_trade
        (execute_trade { TradingEngine.construct 0 with is_init := true }
          (.ok ⟨"R_100", "BUY", 1, some 0⟩) 0).2
        (.ok ⟨"EURUSD", "BUY", 1, some 0⟩) (0 + 30)).1 =
      ExecResult.rejected (cooldownMsg 30)) ∧
    ((execute_trade
        (execute_trade { TradingEngine.construct 0 with is_init := true }
          (.ok ⟨"R_100", "BUY", 1, some 0⟩) 0).2
        (.ok ⟨"EURUSD", "BUY", 1, some 0⟩) (0 + 60)).1).isApproved
      = true := by
  have h := claim_C1_cooldown.2.2.2
    { TradingEngine.construct 0 with is_init := true }
    (.ok ⟨"R_100", "BUY", 1, some 0⟩) 0 "EURUSD" "BUY" 1 0 rfl
    (by decide) (by decide) (by decide) (by decide) (by decide)
  exact ⟨h.1, h.2.2⟩

/-- Claim C3: in the struct-based engine cycle (modelled from the spec —
its implementation is not in the available sources), whenever
`drawdown_limit > 0` and the drawdown relative to the reference balance
reaches the limit, processing a tick forces the running flag to false,
returns a PANIC decision and performs no further processing for the cycle;
with balance 1000 and equity 800 the drawdown is 20, so a limit of 15
fires. -/
theorem claim_C3_panic :
    (∀ (st : StructState) (tick : StructTick) (positions : List Position),
      0 < st.config.drawdown_limit →
      st.config.drawdown_limit ≤ drawdownOf st.balance st.equity →
      ((struct_process_tick st tick positions).1).action =
        ActionType.PANIC ∧
      ((struct_process_tick st tick positions).2).running = false ∧
      (struct_process_tick st tick positions).2 =
        { st with running := false,
                  current_drawdown := drawdownOf st.balance st.equity }) ∧
    drawdownOf 1000 800 = 20 ∧
    (∀ (st : StructState) (tick : StructTick) (positions : List Position),
      st.config.drawdown_limit = 15 → st.balance = 1000 →
      st.equity = 800 →
      ((struct_process_tick st tick positions).1).action =
        ActionType.PANIC ∧
      ((struct_process_tick st tick positions).2).running = false) := by
  have hdd : drawdownOf 1000 800 = 20 := by
    norm_num [drawdownOf, referenceBalance]
  refine ⟨?_, hdd, ?_⟩
  · intro st tick positions h1 h2
    have hcond : 0 < st.config.drawdown_limit ∧
        st.config.drawdown_limit ≤ drawdownOf st.balance st.equity :=
      ⟨h1, h2⟩
    refine ⟨?_, ?_, ?_⟩ <;> simp [struct_process_tick, hcond]
  · intro st tick positions hdl hb he
    have hcond : 0 < st.config.drawdown_limit ∧
        st.config.drawdown_limit ≤ drawdownOf st.balance st.equity := by
      rw [hdl, hb, he, hdd]; norm_num
    constructor <;> simp [struct_process_tick, hcond]

/-- Witness for C3 at concrete inputs: a struct engine with drawdown limit
15, balance 1000 and equity 800 returns a PANIC decision and stops. -/
theorem claim_C3_witness :
    ((struct_process_tick ⟨⟨10, 1, 10, 5, 5, 5, 15⟩, true, 1000, 800, 0⟩
        ⟨100, 101, "R_100"⟩ []).1).action = ActionType.PANIC ∧
    ((struct_process_tick ⟨⟨10, 1, 10, 5, 5, 5, 15⟩, true, 1000, 800, 0⟩
        ⟨100, 101, "R_100"⟩ []).2).running = false :=
  claim_C3_panic.2.2 ⟨⟨10, 1, 10, 5, 5, 5, 15⟩, true, 1000, 800, 0⟩
    ⟨100, 101, "R_100"⟩ [] rfl rfl rfl

/-- Claim C8: two `get_bot_state` reads of the same engine state (no
intervening mutation), the second at a time not earlier than the first,
report non-decreasing uptime and an identical running flag — and the
`get_bot_state` operation itself does not change the engine state. -/
theorem claim_C8_get_bot_state (st : TradingEngine) (t1 t2 : Int)
    (h : t1 ≤ t2) :
    (get_bot_state st t1).uptime_seconds ≤
      (get_bot_state st t2).uptime_seconds ∧
    (get_bot_state st t1).is_running = (get_bot_state st t2).is_running ∧
    stepAt st (.opGetState, t1) = st := by
  refine ⟨?_, rfl, rfl⟩
  simp only [get_bot_state]
  omega

/-- Witness for C8 at concrete inputs. -/
theorem claim_C8_witness :
    (get_bot_state (TradingEngine.construct 0) 0).uptime_seconds ≤
      (get_bot_state (TradingEngine.construct 0) 5).uptime_seconds :=
  (claim_C8_get_bot_state (TradingEngine.construct 0) 0 5 (by decide)).1

/-- Claim C9: for a well-formed tick, `process_tick` returns the analysis
echoing symbol and price with the fixed neutral signal 0.5 (so never a BUY,
SELL, CLOSE or PANIC action), stores the quote in the price cache under the
symbol, and changes no other engine state (all other fields and all other
cache entries are untouched). -/
theorem claim_C9_process_tick (st : TradingEngine) (sym : String) (q : ℚ) :
    (process_tick st (.ok ⟨sym, q⟩)).1 = TickResult.analysis sym q (1 / 2) ∧
    ((process_tick st (.ok ⟨sym, q⟩)).2).price_cache sym = some q ∧
    (∀ s, s ≠ sym → ((process_tick st (.ok ⟨sym, q⟩)).2).price_cache s =
      st.price_cache s) ∧
    ((process_tick st (.ok ⟨sym, q⟩)).2).last_trade_time =
      st.last_trade_time ∧
    ((process_tick st (.ok ⟨sym, q⟩)).2).cooldown_seconds =
      st.cooldown_seconds ∧
    ((process_tick st (.ok ⟨sym, q⟩)).2).is_init = st.is_init ∧
    ((process_tick st (.ok ⟨sym, q⟩)).2).is_running = st.is_running ∧
    ((process_tick st (.ok ⟨sym, q⟩)).2).start_time = st.start_time := by
  have hhalf : mkRat 1 2 = (1 : ℚ) / 2 := by
    rw [Rat.mkRat_eq_div]; norm_num
  refine ⟨?_, by simp [process_tick], fun s hs => by simp [process_tick, hs],
    rfl, rfl, rfl, rfl, rfl⟩
  simp [process_tick, hhalf]

/-- Witness for C9 at concrete inputs: a tick for one symbol leaves the
cache entry of a different symbol unchanged. -/
theorem claim_C9_witness :
    ((process_tick (TradingEngine.construct 0)
        (.ok ⟨"R_100", 42⟩)).2).price_cache "EURUSD" =
      (TradingEngine.construct 0).price_cache "EURUSD" :=
  (claim_C9_process_tick (TradingEngine.construct 0) "R_100" 42).2.2.1
    "EURUSD" (by decide)

/-- Claim C10: a trade request without the `active_trades` field is treated
exactly as one with an active trade count of 0, so the maximum-active-trades
check can never cause its rejection. -/
theorem claim_C10_missing_active_trades (st : TradingEngine)
    (sym act : String) (stake : ℚ) (now : Int) :
    (execute_trade st (.ok ⟨sym, act, stake, none⟩) now =
      execute_trade st (.ok ⟨sym, act, stake, some 0⟩) now) ∧
    (execute_trade st (.ok ⟨sym, act, stake, none⟩) now).1 ≠
      ExecResult.rejected msgMaxTrades := by
  refine ⟨rfl, ?_⟩
  have herr : (validate_trade st stake sym 0 now).error ≠ msgMaxTrades := by
    unfold validate_trade
    split_ifs with h1 h2 h3 h4 h5 h6 h7
    · exact by decide
    · exact by decide
    · exact by decide
    · exact by decide
    · exact by decide
    · exact absurd h6 (by decide)
    · exact cooldownMsg_ne _ _ (by decide)
    · exact by decide
  intro h
  by_cases hv : (validate_trade st stake sym 0 now).valid = true
  · simp [execute_trade, hv] at h
  · simp only [execute_trade, Option.getD] at h
    rw [if_neg hv] at h
    exact herr (by injection h)

/-- Witness for C10 at concrete inputs: a request without `active_trades`
is not rejected with the max-trades reason. -/
theorem claim_C10_witness :
    (execute_trade (TradingEngine.construct 0)
        (.ok ⟨"R_100", "BUY", 1, none⟩) 0).1 ≠
      ExecResult.rejected msgMaxTrades :=
  (claim_C10_missing_active_trades (TradingEngine.construct 0) "R_100"
    "BUY" 1 0).2
